import Mathlib

/-!
Verification of the tentacle task tools (`create_task.py`, `get_task_status.py`)
against their natural-language specification.

The Python code is shallowly embedded: attribute access on duck-typed
snapshots is modelled with `Option` fields (`none` = attribute absent or
`None`), raising backend calls are modelled with `Except String`, and the
monotonic clock observed by the polling loop is modelled by feeding the loop
a list of ticks, each carrying the fetch outcome and the clock reading of
that iteration.  Python `float` arithmetic is modelled over `ℚ`.
-/

namespace Tentacle

/-! ### Status canonicalization (`_status_value`, both files)

A raw status is either a plain string or an enum-like wrapper exposing a
`.value` attribute (whose payload may itself be `None`).  `_status_value`
unwraps, stringifies and lowercases, mapping `None` to `"unknown"`. -/

inductive StatusRepr where
  | plain (s : String)
  | wrapped (value : Option String)
deriving DecidableEq, Repr

/-- Python `str.lower()` (written over the character list so that it
evaluates definitionally on literals). -/
def pyLower (s : String) : String := ⟨s.data.map Char.toLower⟩

def status_value : Option StatusRepr → String
  | none => "unknown"
  | some (.plain s) => pyLower s
  | some (.wrapped none) => "unknown"
  | some (.wrapped (some v)) => pyLower v

/-! ### Task / step snapshots

The snapshot shape shared by both tools: `steps` may be absent or `None`
(`_summarize_task` and `_format_plan` both coalesce that to `[]`), and the
`get_progress_percentage` capability may be absent or may raise, which both
collapse to `progress_cap = none`. -/

structure Step where
  status : Option StatusRepr
deriving DecidableEq, Repr

structure Plan where
  id : String
  user_id : String
  goal : String
  status : Option StatusRepr
  steps : Option (List Step)
  progress_cap : Option ℚ
  created_at : Option String
  updated_at : Option String
deriving DecidableEq, Repr

/-! ### Step counting loop shared by `_summarize_task` / `_format_plan` -/

def completedStatusList : List String := ["done", "completed"]

/-- The `for step in steps` loop of `_summarize_task`: a step counts as
completed when its canonical status is in `{done, completed}`, otherwise as
failed when it is `"failed"`, otherwise in neither bucket. -/
def stepCounts : List Step → ℕ × ℕ
  | [] => (0, 0)
  | s :: rest =>
    let prev := stepCounts rest
    let st := status_value s.status
    if st ∈ completedStatusList then (prev.1 + 1, prev.2)
    else if st = "failed" then (prev.1, prev.2 + 1)
    else prev

/-- Python `round(x, 2)` on the fallback percentage (rounding to two decimal
places; ties modelled as round-half-away-from-zero on `ℚ` via `round`). -/
def round2 (q : ℚ) : ℚ := ((round (q * 100) : ℤ) : ℚ) / 100

/-- `_safe_progress` from `create_task.py`: prefer the snapshot's own
percentage capability; on absence/failure fall back to the step ratio, or
`0.0` when there are no steps. -/
def safe_progress (task : Plan) (completed_steps total_steps : ℕ) : ℚ :=
  match task.progress_cap with
  | some p => p
  | none =>
    if total_steps ≤ 0 then 0
    else round2 (((completed_steps : ℚ) / (total_steps : ℚ)) * 100)

structure Summary where
  steps_total : ℕ
  steps_completed : ℕ
  steps_failed : ℕ
  progress_percentage : ℚ
deriving DecidableEq, Repr

/-- `_summarize_task` from `create_task.py`. -/
def summarize_task (task : Plan) : Summary :=
  let steps := task.steps.getD []
  let total_steps := steps.length
  let counts := stepCounts steps
  { steps_total := total_steps
    steps_completed := counts.1
    steps_failed := counts.2
    progress_percentage := safe_progress task counts.1 total_steps }

/-! ### Wait-timeout resolution (`_resolve_wait_timeout`)

The requested value is modelled after Python's access pattern:
`none` = key absent or `None`, `some none` = present but `int()` raises,
`some (some n)` = converts to the integer `n`. -/

def resolve_wait_timeout (requested : Option (Option ℤ))
    (default_timeout max_timeout : ℤ) : ℤ :=
  match requested with
  | none => max 0 (min default_timeout max_timeout)
  | some none => max 0 (min default_timeout max_timeout)
  | some (some timeout_int) => max 0 (min timeout_int max_timeout)

/-- The spec's words: `clamp(x, lo, hi)`.  Used only to compare
`resolve_wait_timeout` against the specified clamp semantics. -/
def clampSpec (lo hi x : ℤ) : ℤ := min (max x lo) hi

/-! ### Bounded-wait poller (`_wait_for_terminal_status`)

Each `Tick` is one iteration of the `while True` loop: `fetch` is the
outcome of `get_task` (`none` = the call raised, or returned `None`), and
`now` is the monotonic clock reading at that iteration's deadline check.
The loop is driven by the (finite) tick list; a trace too short for the
loop to return yields `none`.  `fetches` and `sleeps` count how many ticks
performed a fetch and how many reached the trailing `asyncio.sleep`. -/

structure Tick where
  fetch : Option Plan
  now : ℚ
deriving DecidableEq, Repr

def terminalStatusList : List String := ["completed", "failed", "cancelled", "checkpoint"]

structure WaitOutcome where
  task : Option Plan
  status : String
  timed_out : Bool
  fetches : ℕ
  sleeps : ℕ
deriving DecidableEq, Repr

/-- Account for one more loop iteration in front of an outcome. -/
def bumpTick (o : WaitOutcome) : WaitOutcome :=
  { o with fetches := o.fetches + 1, sleeps := o.sleeps + 1 }

def waitLoop (deadline : ℚ) :
    List Tick → Option Plan → String → Option WaitOutcome
  | [], _, _ => none
  | t :: rest, last_task, last_status =>
    match t.fetch with
    | some task =>
      let s := status_value task.status
      if s ∈ terminalStatusList then
        some ⟨some task, s, false, 1, 0⟩
      else if deadline ≤ t.now then
        some ⟨some task, s, true, 1, 0⟩
      else
        (waitLoop deadline rest (some task) s).map bumpTick
    | none =>
      if deadline ≤ t.now then
        some ⟨last_task, last_status, true, 1, 0⟩
      else
        (waitLoop deadline rest last_task last_status).map bumpTick

/-- `_wait_for_terminal_status`, entered at monotonic time `start`:
`deadline = start + max(0, timeout_seconds)`, last snapshot starts as
`None` and last status as `"planning"`. -/
def wait_for_terminal_status (start : ℚ) (timeout_seconds : ℤ)
    (ticks : List Tick) : Option WaitOutcome :=
  waitLoop (start + max 0 (timeout_seconds : ℚ)) ticks none "planning"

/-! ### Checkpoint snapshots and their two serializers

`plan_id` / `task_id` model duck-typed attributes: `none` = attribute
absent.  `checkpoint_type` is the raw attribute (`none` = absent or
`None`), possibly an enum-like wrapper.  Datetimes are modelled by their
ISO-8601 rendering, so `.isoformat()` is the identity on the model. -/

inductive CVal where
  | str (s : String)
  | strList (xs : List String)
  | null
deriving DecidableEq, Repr

structure Checkpoint where
  plan_id : Option String
  task_id : Option String
  step_id : String
  checkpoint_name : String
  description : String
  checkpoint_type : Option StatusRepr
  preview_data : CVal
  questions : CVal
  alternatives : CVal
  created_at : Option String
  expires_at : Option String
deriving DecidableEq, Repr

def isoOpt : Option String → CVal
  | some s => .str s
  | none => .null

/-- `getattr(checkpoint_type, "value", checkpoint_type) or "approval"`:
unwrap an enum-like wrapper, then replace a falsy value (`None` or the
empty string) by `"approval"`. -/
def checkpoint_type_value (ct : Option StatusRepr) : String :=
  let raw : Option String :=
    match ct with
    | none => none
    | some (.wrapped v) => v
    | some (.plain s) => some s
  match raw with
  | none => "approval"
  | some s => if s = "" then "approval" else s

/-- `_serialize_checkpoint` from `create_task.py`.  The id is the direct
attribute access `checkpoint.plan_id`; when that attribute is absent the
access raises `AttributeError`, modelled as `none`. -/
def serialize_checkpoint (checkpoint : Checkpoint) :
    Option (List (String × CVal)) :=
  match checkpoint.plan_id with
  | none => none
  | some pid =>
    some
      [("task_id", .str pid),
       ("step_id", .str checkpoint.step_id),
       ("checkpoint_name", .str checkpoint.checkpoint_name),
       ("description", .str checkpoint.description),
       ("checkpoint_type", .str (checkpoint_type_value checkpoint.checkpoint_type)),
       ("preview_data", checkpoint.preview_data),
       ("questions", checkpoint.questions),
       ("alternatives", checkpoint.alternatives),
       ("created_at", isoOpt checkpoint.created_at),
       ("expires_at", isoOpt checkpoint.expires_at)]

/-- The checkpoint's task reference as read with
`getattr(c, "plan_id", getattr(c, "task_id", None))`. -/
def checkpointRef (c : Checkpoint) : Option String :=
  match c.plan_id with
  | some pid => some pid
  | none => c.task_id

/-- `GetTaskStatusTool._format_checkpoint` from `get_task_status.py`. -/
def format_checkpoint (checkpoint : Checkpoint) : List (String × CVal) :=
  [("plan_id", match checkpointRef checkpoint with
               | some s => .str s
               | none => .null),
   ("step_id", .str checkpoint.step_id),
   ("name", .str checkpoint.checkpoint_name),
   ("description", .str checkpoint.description),
   ("preview", checkpoint.preview_data),
   ("created_at", isoOpt checkpoint.created_at),
   ("expires_at", isoOpt checkpoint.expires_at)]

/-! ### Backend provider interfaces (§6 of the spec)

Async backend calls may raise; they are modelled as `Except String`. -/

structure DelegationService where
  get_plan : String → Except String (Option Plan)
  get_pending_checkpoints : String → Except String (List Checkpoint)
  get_user_plans : String → ℤ → Except String (List Plan)

structure TaskUseCases where
  get_task : String → Except String (Option Plan)
  list_tasks : String → ℤ → Except String (List Plan)

structure CheckpointUseCases where
  list_pending : String → Except String (List Checkpoint)
  list_pending_for_task : String → Except String (List Checkpoint)

/-- Python truthiness for an optional string: `None` and `""` are falsy. -/
def strTruthy : Option String → Option String
  | some s => if s = "" then none else some s
  | none => none

structure ToolResult (α : Type) where
  success : Bool
  data : Option α
  message : Option String
  error : Option String
deriving DecidableEq, Repr

/-! ### `GetTaskStatusTool` -/

/-- `GetTaskStatusTool._format_plan`: two independent counting passes over
the steps, then the same progress preference as `_safe_progress` except
that the initial `0.0` survives when the capability fails and there are no
steps. -/

structure PlanFmt where
  plan_id : String
  goal : String
  status : String
  progress : ℚ
  steps_total : ℕ
  steps_completed : ℕ
  steps_failed : ℕ
  created_at : Option String
  updated_at : Option String
deriving DecidableEq, Repr

def format_plan (plan : Plan) : PlanFmt :=
  let steps := plan.steps.getD []
  let completed_steps :=
    steps.countP (fun s => decide (status_value s.status ∈ completedStatusList))
  let failed_steps :=
    steps.countP (fun s => decide (status_value s.status = "failed"))
  let progress : ℚ :=
    match plan.progress_cap with
    | some p => p
    | none =>
      if ¬ steps.isEmpty then
        round2 (((completed_steps : ℚ) / (steps.length : ℚ)) * 100)
      else 0
  { plan_id := plan.id
    goal := plan.goal
    status := status_value plan.status
    progress := progress
    steps_total := steps.length
    steps_completed := completed_steps
    steps_failed := failed_steps
    created_at := plan.created_at
    updated_at := plan.updated_at }

/-- The active statuses of listing mode, `_status_value` applied to
`TaskStatus.{PLANNING, READY, EXECUTING, CHECKPOINT}` (enum values per the
spec's canonical status set). -/
def activeStatusList : List String := ["planning", "ready", "executing", "checkpoint"]

/-- The terminal statuses of listing mode, `_status_value` applied to
`TaskStatus.{COMPLETED, FAILED, CANCELLED}`. -/
def listingTerminalStatusList : List String := ["completed", "failed", "cancelled"]

structure SingleData where
  plan : PlanFmt
  pending_checkpoints : Option (List (List (String × CVal)))
deriving DecidableEq, Repr

structure ListingData where
  active_tasks : List PlanFmt
  active_count : ℕ
  completed_tasks : Option (List PlanFmt)
  completed_count : Option ℕ
  pending_checkpoints : Option (List (List (String × CVal)))
  checkpoint_count : Option ℕ
deriving DecidableEq, Repr

inductive GTSData where
  | single (d : SingleData)
  | listing (d : ListingData)
deriving DecidableEq, Repr

structure GTSArgs where
  plan_id : Option String
  include_completed : Bool
  include_checkpoints : Bool
  limit : ℤ
deriving DecidableEq, Repr

structure GTSCtx where
  user_id : Option String
  delegation_service : Option DelegationService
  task_use_cases : Option TaskUseCases
  checkpoint_use_cases : Option CheckpointUseCases

/-- The task provider actually used inside the `try` block: the unified
delegation façade when present, otherwise the split use-cases. -/
inductive TaskProvider where
  | deleg (ds : DelegationService)
  | split (tuc : TaskUseCases)

/-- Body of the `try` block of `GetTaskStatusTool.execute`; a raised
backend error escapes as `Except.error` and is converted by the caller. -/
def gtsBody (args : GTSArgs) (user_id : String) (provider : TaskProvider)
    (checkpoint_uc : Option CheckpointUseCases) :
    Except String (ToolResult GTSData) := do
  match strTruthy args.plan_id with
  | some pid =>
    let plan? ←
      match provider with
      | .deleg ds => ds.get_plan pid
      | .split tuc => tuc.get_task pid
    match plan? with
    | none => pure ⟨false, none, none, some ("Task not found: " ++ pid)⟩
    | some plan =>
      if plan.user_id ≠ user_id then
        pure ⟨false, none, none, some "Access denied to this task"⟩
      else do
        let pending_checkpoints ←
          if args.include_checkpoints then do
            let checkpoints ←
              match provider with
              | .deleg ds => ds.get_pending_checkpoints user_id
              | .split _ =>
                match checkpoint_uc with
                | some cuc => cuc.list_pending_for_task pid
                | none => pure []
            let plan_checkpoints :=
              checkpoints.filter (fun c => decide (checkpointRef c = some pid))
            if plan_checkpoints.isEmpty then pure none
            else pure (some (plan_checkpoints.map format_checkpoint))
          else pure none
        let status := status_value plan.status
        pure ⟨true, some (.single ⟨format_plan plan, pending_checkpoints⟩),
              some ("Task '" ++ plan.goal.take 50 ++ "...' is " ++ status), none⟩
  | none =>
    let active_plans ←
      match provider with
      | .deleg ds => ds.get_user_plans user_id args.limit
      | .split tuc => tuc.list_tasks user_id args.limit
    let active_tasks :=
      active_plans.filter (fun p => decide (status_value p.status ∈ activeStatusList))
    let completed_tasks :=
      if args.include_completed then
        (active_plans.filter
          (fun p => decide (status_value p.status ∈ listingTerminalStatusList))).take 5
      else []
    let pending_checkpoints ←
      if args.include_checkpoints then do
        let checkpoints ←
          match provider with
          | .deleg ds => ds.get_pending_checkpoints user_id
          | .split _ =>
            match checkpoint_uc with
            | some cuc => cuc.list_pending user_id
            | none => pure []
        pure (checkpoints.map format_checkpoint)
      else pure []
    let d : ListingData :=
      { active_tasks := active_tasks.map format_plan
        active_count := active_tasks.length
        completed_tasks :=
          if args.include_completed then some (completed_tasks.map format_plan) else none
        completed_count :=
          if args.include_completed then some completed_tasks.length else none
        pending_checkpoints :=
          if args.include_checkpoints then some pending_checkpoints else none
        checkpoint_count :=
          if args.include_checkpoints then some pending_checkpoints.length else none }
    let summary_parts : List String :=
      (if ¬ active_tasks.isEmpty
       then [toString active_tasks.length ++ " active task(s)"] else []) ++
      (if ¬ pending_checkpoints.isEmpty
       then [toString pending_checkpoints.length ++ " checkpoint(s) pending approval"]
       else []) ++
      (if ¬ completed_tasks.isEmpty
       then [toString completed_tasks.length ++ " recently completed"] else [])
    let message :=
      if summary_parts.isEmpty then "No active tasks"
      else String.intercalate ", " summary_parts
    pure ⟨true, some (.listing d), some message, none⟩

/-- Resolution of the split task provider (`get_task_status.py` lines
132-137): the factory is consulted only when neither a delegation service
nor task use-cases are already in context. -/
def resolvedTaskUC (ctx : GTSCtx) (task_factory : Option TaskUseCases) :
    Option TaskUseCases :=
  if ctx.delegation_service.isNone && ctx.task_use_cases.isNone then task_factory
  else ctx.task_use_cases

/-- Resolution of the split checkpoint provider (`get_task_status.py`
lines 138-142). -/
def resolvedCheckpointUC (args : GTSArgs) (ctx : GTSCtx)
    (checkpoint_factory : Option CheckpointUseCases) : Option CheckpointUseCases :=
  if args.include_checkpoints && ctx.delegation_service.isNone
      && ctx.checkpoint_use_cases.isNone then checkpoint_factory
  else ctx.checkpoint_use_cases

/-- `GetTaskStatusTool.execute`.  `task_factory` / `checkpoint_factory`
are the outcomes of the lazily-constructed module-level providers
(`none` = the async factory raised, logged and swallowed). -/
def executeGTS (args : GTSArgs) (ctx : GTSCtx)
    (task_factory : Option TaskUseCases)
    (checkpoint_factory : Option CheckpointUseCases) : ToolResult GTSData :=
  match strTruthy ctx.user_id with
  | none => ⟨false, none, none, some "User context not available"⟩
  | some user_id =>
    let task_uc := resolvedTaskUC ctx task_factory
    let checkpoint_uc := resolvedCheckpointUC args ctx checkpoint_factory
    let run (provider : TaskProvider) : ToolResult GTSData :=
      match gtsBody args user_id provider checkpoint_uc with
      | .ok r => r
      | .error e => ⟨false, none, none, some ("Failed to get task status: " ++ e)⟩
    match ctx.delegation_service with
    | some ds => run (.deleg ds)
    | none =>
      match task_uc with
      | some tuc => run (.split tuc)
      | none => ⟨false, none, none, some "Delegation service not available"⟩

/-! ### `InboxCreateTaskTool` -/

structure CTArgs where
  goal : String
  constraints : Option (List (String × CVal))
  wait_for_completion : Option Bool
  wait_timeout_seconds : Option (Option ℤ)

structure CTCtx where
  user_id : Option String
  organization_id : Option String
  conversation_id : Option String
  file_references : Option (List String)

/-- The keyword arguments passed to `task_use_cases.create_task`. -/
structure CreateReq where
  user_id : String
  organization_id : String
  goal : String
  constraints : Option (List (String × CVal))
  metadata_source : String
  metadata_conversation_id : String
  auto_start : Bool

/-- Backend surface used by `InboxCreateTaskTool.execute`; `create_task`
yields the created task's id.  `checkpoint_factory` is
`_get_checkpoint_use_cases()` (it may itself raise).  The poller's
`get_task` calls are driven by the tick trace instead. -/
structure CTBackend where
  create_task : CreateReq → Except String String
  link_conversation : String → String → Except String Unit
  checkpoint_factory : Except String CheckpointUseCases

/-- `_get_pending_checkpoint`: resolve the checkpoint provider, list the
pending checkpoints of the task, and serialize the first one (whose
`plan_id` access may raise). -/
def get_pending_checkpoint (factory : Except String CheckpointUseCases)
    (task_id : String) : Except String (Option (List (String × CVal))) := do
  let checkpoint_use_cases ← factory
  let pending ← checkpoint_use_cases.list_pending_for_task task_id
  match pending with
  | [] => pure none
  | c :: _ =>
    match serialize_checkpoint c with
    | some d => pure (some d)
    | none => Except.error "AttributeError: plan_id"

/-- The response dictionary of `InboxCreateTaskTool.execute`: `base_data`
plus the branch-specific keys; `none` fields model absent keys. -/
structure CTData where
  task_id : String
  goal : String
  timed_out : Bool
  summary : Option Summary
  status : String
  current_status : Option String
  wait_timeout_seconds : Option ℤ
  checkpoint : Option (Option (List (String × CVal)))
deriving DecidableEq, Repr

/-- `InboxCreateTaskTool.execute`.  The second component of the returned
pair counts how many `get_task` fetches the bounded wait performed
(`0` when the wait was skipped); `none` means the tick trace was too short
for the wait to finish. -/
def executeCT (args : CTArgs) (ctx : CTCtx) (be : CTBackend)
    (default_timeout max_timeout : ℤ) (pollStart : ℚ) (ticks : List Tick) :
    Option (ToolResult CTData × ℕ) :=
  let goal := args.goal
  let constraints0 := args.constraints.getD []
  let wait_for_completion := args.wait_for_completion.getD true
  let wait_timeout_seconds :=
    resolve_wait_timeout args.wait_timeout_seconds default_timeout max_timeout
  let organization_id := ctx.organization_id.getD ""
  let constraints :=
    match ctx.file_references with
    | some frs =>
      if ¬ frs.isEmpty then constraints0 ++ [("file_references", CVal.strList frs)]
      else constraints0
    | none => constraints0
  match strTruthy ctx.user_id, strTruthy ctx.conversation_id with
  | some user_id, some conversation_id =>
    match be.create_task
        ⟨user_id, organization_id, goal,
         (if constraints.isEmpty then none else some constraints),
         "inbox_chat", conversation_id, true⟩ with
    | .error e => some (⟨false, none, none, some ("Failed to create task: " ++ e)⟩, 0)
    | .ok task_id =>
      match be.link_conversation task_id conversation_id with
      | .error e => some (⟨false, none, none, some ("Failed to create task: " ++ e)⟩, 0)
      | .ok _ =>
        let base : CTData := ⟨task_id, goal, false, none, "", none, none, none⟩
        if ¬ wait_for_completion then
          some (⟨true, some { base with status := "planning" },
                 some ("Task created and planning started: " ++ goal), none⟩, 0)
        else
          match waitLoop (pollStart + max 0 (wait_timeout_seconds : ℚ))
              ticks none "planning" with
          | none => none
          | some o =>
            let withSummary :=
              match o.task with
              | some observed_task =>
                { base with summary := some (summarize_task observed_task) }
              | none => base
            if o.timed_out then
              some (⟨true,
                     some { withSummary with
                            status := "running",
                            current_status := some o.status,
                            timed_out := true,
                            wait_timeout_seconds := some wait_timeout_seconds },
                     some ("Task started and is still running. " ++
                           "Use get_task_status for updates."), none⟩, o.fetches)
            else if o.status = "checkpoint" then
              match get_pending_checkpoint be.checkpoint_factory task_id with
              | .error e =>
                some (⟨false, none, none,
                       some ("Failed to create task: " ++ e)⟩, o.fetches)
              | .ok checkpoint_data =>
                some (⟨true,
                       some { withSummary with
                              status := "checkpoint",
                              checkpoint := some checkpoint_data },
                       some "Task is waiting for your checkpoint approval.", none⟩,
                      o.fetches)
            else if o.status ∈ (["completed", "failed", "cancelled"] : List String) then
              some (⟨true, some { withSummary with status := o.status },
                     some ("Task reached terminal status: " ++ o.status ++ "."), none⟩,
                    o.fetches)
            else
              some (⟨true, some { withSummary with status := o.status },
                     some "Task created and started.", none⟩, o.fetches)
  | _, _ =>
    some (⟨false, none, none, some "Missing user_id or conversation_id in context"⟩, 0)

/-! ## Helper lemmas -/

theorem stepCounts_fst (l : List Step) :
    (stepCounts l).1 =
      l.countP (fun s => decide (status_value s.status ∈ completedStatusList)) := by
  induction l with
  | nil => rfl
  | cons s rest ih =>
    simp only [stepCounts, List.countP_cons]
    by_cases hc : status_value s.status ∈ completedStatusList
    · simp [hc, ih]
    · have hc' : ¬(status_value s.status = "done" ∨
          status_value s.status = "completed") := by
        simpa [completedStatusList] using hc
      by_cases hf : status_value s.status = "failed" <;>
        simp +decide [hc', hf, ih, completedStatusList]

theorem stepCounts_snd (l : List Step) :
    (stepCounts l).2 =
      l.countP (fun s => decide (status_value s.status = "failed")) := by
  induction l with
  | nil => rfl
  | cons s rest ih =>
    simp only [stepCounts, List.countP_cons]
    by_cases hc : status_value s.status ∈ completedStatusList
    · have hne : status_value s.status ≠ "failed" := by
        simp only [completedStatusList, List.mem_cons, List.not_mem_nil,
          or_false] at hc
        rcases hc with h | h <;> rw [h] <;> decide
      simp [hc, hne, ih]
    · have hc' : ¬(status_value s.status = "done" ∨
          status_value s.status = "completed") := by
        simpa [completedStatusList] using hc
      by_cases hf : status_value s.status = "failed" <;>
        simp +decide [hc', hf, ih, completedStatusList]

theorem stepCounts_sum_le (l : List Step) :
    (stepCounts l).1 + (stepCounts l).2 ≤ l.length := by
  induction l with
  | nil => simp [stepCounts]
  | cons s rest ih =>
    simp only [stepCounts, List.length_cons]
    by_cases hc : status_value s.status ∈ completedStatusList
    · simp only [if_pos hc]; omega
    · by_cases hf : status_value s.status = "failed"
      · simp only [if_neg hc, if_pos hf]; omega
      · simp only [if_neg hc, if_neg hf]; omega

theorem round2_nonneg {q : ℚ} (h : 0 ≤ q) : 0 ≤ round2 q := by
  unfold round2
  have h1 : (0 : ℤ) ≤ round (q * 100) := by
    rw [round_eq]
    have : (0 : ℤ) = ⌊(0 : ℚ) + 1 / 2⌋ := by norm_num
    rw [this]
    exact Int.floor_mono (by linarith)
  positivity

theorem round2_le_100 {q : ℚ} (h : q ≤ 100) : round2 q ≤ 100 := by
  unfold round2
  have h1 : round (q * 100) ≤ 10000 := by
    rw [round_eq]
    have h2 : (10000 : ℤ) = ⌊(10000 : ℚ) + 1 / 2⌋ := by norm_num
    rw [h2]
    exact Int.floor_mono (by linarith)
  rw [div_le_iff₀ (by norm_num : (0 : ℚ) < 100)]
  calc ((round (q * 100) : ℤ) : ℚ) ≤ (10000 : ℤ) := by exact_mod_cast h1
    _ = 100 * 100 := by norm_num

theorem ratio_bounds {c n : ℕ} (hc : c ≤ n) (hn : 0 < n) :
    0 ≤ ((c : ℚ) / n) * 100 ∧ ((c : ℚ) / n) * 100 ≤ 100 := by
  constructor
  · positivity
  · have h1 : (c : ℚ) / n ≤ 1 := by
      rw [div_le_one (by exact_mod_cast hn)]
      exact_mod_cast hc
    nlinarith

theorem safe_progress_none_spec (task : Plan) (c n : ℕ)
    (hcap : task.progress_cap = none) (hc : c ≤ n) :
    0 ≤ safe_progress task c n ∧ safe_progress task c n ≤ 100 ∧
    (n = 0 → safe_progress task c n = 0) ∧
    (0 < n → safe_progress task c n = round2 (((c : ℚ) / n) * 100)) := by
  unfold safe_progress
  rw [hcap]
  rcases Nat.eq_zero_or_pos n with h0 | hpos
  · subst h0
    simp
  · have hne : ¬ n ≤ 0 := by omega
    simp only [if_neg hne]
    exact ⟨round2_nonneg (ratio_bounds hc hpos).1,
           round2_le_100 (ratio_bounds hc hpos).2,
           fun h => absurd h (by omega),
           fun _ => by simp⟩

theorem format_plan_progress_none_spec (task : Plan)
    (hcap : task.progress_cap = none) :
    0 ≤ (format_plan task).progress ∧ (format_plan task).progress ≤ 100 ∧
    ((format_plan task).steps_total = 0 → (format_plan task).progress = 0) ∧
    (0 < (format_plan task).steps_total →
      (format_plan task).progress =
        round2 ((((format_plan task).steps_completed : ℚ) /
          ((format_plan task).steps_total : ℚ)) * 100)) := by
  have hc : (task.steps.getD []).countP
      (fun s => decide (status_value s.status ∈ completedStatusList)) ≤
      (task.steps.getD []).length := List.countP_le_length _
  by_cases hemp : (task.steps.getD []).isEmpty
  · have hnil : task.steps.getD [] = [] := by
      cases h : task.steps.getD [] with
      | nil => rfl
      | cons a l => rw [h] at hemp; simp at hemp
    simp [format_plan, hcap, hnil]
  · have hpos : 0 < (task.steps.getD []).length := by
      cases h : task.steps.getD [] with
      | nil => rw [h] at hemp; simp at hemp
      | cons a l => simp [h]
    have hprog : (format_plan task).progress =
        round2 ((((task.steps.getD []).countP
          (fun s => decide (status_value s.status ∈ completedStatusList)) : ℚ) /
          ((task.steps.getD []).length : ℚ)) * 100) := by
      simp [format_plan, hcap, hemp]
    have htot : (format_plan task).steps_total = (task.steps.getD []).length := rfl
    refine ⟨?_, ?_, ?_, ?_⟩
    · rw [hprog]
      exact round2_nonneg (ratio_bounds hc hpos).1
    · rw [hprog]
      exact round2_le_100 (ratio_bounds hc hpos).2
    · intro h0
      rw [htot] at h0
      omega
    · intro _
      rw [hprog]
      rfl

/-! ## Claims -/

/-- C3: the resolved wait timeout equals `clamp(requested, 0, MAX_WAIT)`
when the requested value converts to an integer, and
`clamp(default, 0, MAX_WAIT)` when it is absent or not convertible
(assuming a non-negative configured maximum, under which the code's
`max 0 (min x M)` coincides with the specified clamp). -/
theorem C3_resolve_wait_timeout_clamps (requested : Option (Option ℤ))
    (default_timeout max_timeout : ℤ) (hmax : 0 ≤ max_timeout) :
    (∀ n, requested = some (some n) →
      resolve_wait_timeout requested default_timeout max_timeout =
        clampSpec 0 max_timeout n) ∧
    (requested = none ∨ requested = some none →
      resolve_wait_timeout requested default_timeout max_timeout =
        clampSpec 0 max_timeout default_timeout) := by
  constructor
  · rintro n rfl
    simp only [resolve_wait_timeout, clampSpec]
    omega
  · rintro (rfl | rfl) <;> simp only [resolve_wait_timeout, clampSpec] <;> omega

/-- Witness for C3 at concrete inputs. -/
theorem C3_resolve_wait_timeout_clamps_witness :
    resolve_wait_timeout (some (some 999)) 60 300 = clampSpec 0 300 999 ∧
    resolve_wait_timeout (some none) 60 300 = clampSpec 0 300 60 :=
  ⟨(C3_resolve_wait_timeout_clamps (some (some 999)) 60 300 (by decide)).1 999 rfl,
   (C3_resolve_wait_timeout_clamps (some none) 60 300 (by decide)).2 (Or.inr rfl)⟩

/-- C10: in a task summary, `steps_completed + steps_failed ≤ steps_total`;
a step counts as completed exactly when its canonical status is in
`{done, completed}` and as failed exactly when it is `"failed"` (so steps
in any other status land in neither bucket); an absent or `None` `steps`
attribute yields `steps_total = 0`.  Non-negativity is by the `ℕ` type. -/
theorem C10_summarize_task_counts (task : Plan) :
    (summarize_task task).steps_completed + (summarize_task task).steps_failed ≤
      (summarize_task task).steps_total ∧
    (summarize_task task).steps_completed =
      (task.steps.getD []).countP
        (fun s => decide (status_value s.status ∈ completedStatusList)) ∧
    (summarize_task task).steps_failed =
      (task.steps.getD []).countP
        (fun s => decide (status_value s.status = "failed")) ∧
    (task.steps = none → (summarize_task task).steps_total = 0) := by
  refine ⟨?_, ?_, ?_, ?_⟩
  · simpa [summarize_task] using stepCounts_sum_le (task.steps.getD [])
  · simpa [summarize_task] using stepCounts_fst (task.steps.getD [])
  · simpa [summarize_task] using stepCounts_snd (task.steps.getD [])
  · intro h
    simp [summarize_task, h]

/-- Witness for C10: the absent-steps implication at a concrete snapshot. -/
theorem C10_summarize_task_counts_witness :
    (summarize_task ⟨"t", "u", "g", none, none, none, none, none⟩).steps_total = 0 :=
  (C10_summarize_task_counts ⟨"t", "u", "g", none, none, none, none, none⟩).2.2.2 rfl

/-- C6 counterexample: a snapshot whose own `get_progress_percentage`
capability is present and yields `150.0` makes `_safe_progress` return
`150.0` unchecked, so the computed `progress_percentage` is not within
`[0, 100]` as the claim states for every task snapshot. -/
theorem C6_counterexample :
    (summarize_task ⟨"t", "u", "g", none, none, some 150, none, none⟩).progress_percentage
      = 150 ∧
    ¬ (summarize_task
        ⟨"t", "u", "g", none, none, some 150, none, none⟩).progress_percentage ≤ 100 := by
  constructor
  · rfl
  · intro h
    rw [show (summarize_task
        ⟨"t", "u", "g", none, none, some 150, none, none⟩).progress_percentage
        = 150 from rfl] at h
    norm_num at h

/-- C6 (amended): when the snapshot's own percentage capability is absent
or fails, the computed `progress_percentage` lies within `[0, 100]` — it is
`0.0` when `steps_total = 0` and otherwise `round(steps_completed /
steps_total * 100, 2)` — on both the task-creation path
(`_safe_progress` via `_summarize_task`) and the status-query path
(`_format_plan`); when the capability is present and succeeds, its value
is preferred and returned unchecked. -/
theorem C6_progress_amended (task : Plan) :
    (task.progress_cap = none →
      0 ≤ (summarize_task task).progress_percentage ∧
      (summarize_task task).progress_percentage ≤ 100 ∧
      ((summarize_task task).steps_total = 0 →
        (summarize_task task).progress_percentage = 0) ∧
      (0 < (summarize_task task).steps_total →
        (summarize_task task).progress_percentage =
          round2 ((((summarize_task task).steps_completed : ℚ) /
            ((summarize_task task).steps_total : ℚ)) * 100)) ∧
      0 ≤ (format_plan task).progress ∧ (format_plan task).progress ≤ 100 ∧
      ((format_plan task).steps_total = 0 → (format_plan task).progress = 0) ∧
      (0 < (format_plan task).steps_total →
        (format_plan task).progress =
          round2 ((((format_plan task).steps_completed : ℚ) /
            ((format_plan task).steps_total : ℚ)) * 100))) ∧
    (∀ p, task.progress_cap = some p →
      (summarize_task task).progress_percentage = p ∧
      (format_plan task).progress = p) := by
  constructor
  · intro hcap
    have hc : (stepCounts (task.steps.getD [])).1 ≤ (task.steps.getD []).length := by
      rw [stepCounts_fst]
      exact List.countP_le_length _
    have hmain := safe_progress_none_spec task (stepCounts (task.steps.getD [])).1
      (task.steps.getD []).length hcap hc
    have hfmt := format_plan_progress_none_spec task hcap
    exact ⟨hmain.1, hmain.2.1, hmain.2.2.1, hmain.2.2.2,
           hfmt.1, hfmt.2.1, hfmt.2.2.1, hfmt.2.2.2⟩
  · intro p hp
    constructor
    · simp [summarize_task, safe_progress, hp]
    · simp [format_plan, hp]

/-- Witness for C6 (amended) at concrete snapshots: the fallback bound at a
capability-free snapshot, and capability pass-through at another. -/
theorem C6_progress_amended_witness :
    0 ≤ (summarize_task ⟨"t", "u", "g", none,
        some [⟨some (.plain "done")⟩, ⟨some (.plain "pending")⟩],
        none, none, none⟩).progress_percentage ∧
    (summarize_task ⟨"t2", "u", "g", none, none, some 50, none, none⟩).progress_percentage
      = 50 :=
  ⟨((C6_progress_amended ⟨"t", "u", "g", none,
      some [⟨some (.plain "done")⟩, ⟨some (.plain "pending")⟩],
      none, none, none⟩).1 rfl).1,
   ((C6_progress_amended ⟨"t2", "u", "g", none, none, some 50, none, none⟩).2 50 rfl).1⟩

theorem checkpoint_type_value_ne_empty (ct : Option StatusRepr) :
    checkpoint_type_value ct ≠ "" := by
  rcases ct with _ | sr
  · decide
  · rcases sr with s | v
    · by_cases h : s = "" <;> simp [checkpoint_type_value, h]
    · rcases v with _ | v
      · decide
      · by_cases h : v = "" <;> simp [checkpoint_type_value, h]

/-- C5 counterexample: a checkpoint whose `plan_id` attribute is absent but
whose `task_id` is `"t1"`.  On the task-creation path `_serialize_checkpoint`
raises (`checkpoint.plan_id` has no fallback), yielding no serialization at
all instead of falling back to `task_id`; and on the status-query path
`_format_checkpoint` emits no `checkpoint_type` field whatsoever — refuting
both halves of the claim's "holds for both serialization paths". -/
theorem C5_counterexample :
    serialize_checkpoint
      ⟨none, some "t1", "s1", "name", "desc", none, .null, .null, .null, none, none⟩
      = none ∧
    (format_checkpoint
      ⟨none, some "t1", "s1", "name", "desc", none, .null, .null, .null, none, none⟩).lookup
      "plan_id" = some (.str "t1") ∧
    (format_checkpoint
      ⟨none, some "t1", "s1", "name", "desc", none, .null, .null, .null, none, none⟩).lookup
      "checkpoint_type" = none :=
  ⟨rfl, rfl, rfl⟩

/-- C5 (amended): the task-creation serializer reads the id directly from
`plan_id` — raising, with no `task_id` fallback, when that attribute is
absent — and yields a non-empty `checkpoint_type` defaulting to
`"approval"` when the source value is absent or falsy; the status-query
formatter reads `plan_id` with a `task_id` fallback but emits no
`checkpoint_type` field at all. -/
theorem C5_checkpoint_serialization_amended (c : Checkpoint) :
    (∀ pid, c.plan_id = some pid →
      ∃ l, serialize_checkpoint c = some l ∧
        l.lookup "task_id" = some (.str pid) ∧
        l.lookup "checkpoint_type" =
          some (.str (checkpoint_type_value c.checkpoint_type)) ∧
        checkpoint_type_value c.checkpoint_type ≠ "" ∧
        (c.checkpoint_type = none →
          checkpoint_type_value c.checkpoint_type = "approval")) ∧
    (c.plan_id = none →
      serialize_checkpoint c = none ∧ checkpointRef c = c.task_id) ∧
    (format_checkpoint c).lookup "plan_id" =
      some (match checkpointRef c with | some s => CVal.str s | none => CVal.null) ∧
    (format_checkpoint c).lookup "checkpoint_type" = none := by
  refine ⟨?_, ?_, rfl, rfl⟩
  · intro pid h
    refine ⟨[("task_id", .str pid),
             ("step_id", .str c.step_id),
             ("checkpoint_name", .str c.checkpoint_name),
             ("description", .str c.description),
             ("checkpoint_type", .str (checkpoint_type_value c.checkpoint_type)),
             ("preview_data", c.preview_data),
             ("questions", c.questions),
             ("alternatives", c.alternatives),
             ("created_at", isoOpt c.created_at),
             ("expires_at", isoOpt c.expires_at)],
           by simp [serialize_checkpoint, h], rfl, rfl,
           checkpoint_type_value_ne_empty c.checkpoint_type, ?_⟩
    intro hct
    rw [hct]
    rfl
  · intro h
    exact ⟨by simp [serialize_checkpoint, h], by simp [checkpointRef, h]⟩

/-- Witness for C5 (amended) at a concrete checkpoint with `plan_id`
present and `checkpoint_type` absent. -/
theorem C5_checkpoint_serialization_amended_witness :
    ∃ l, serialize_checkpoint
        ⟨some "p1", none, "s1", "name", "desc", none, .null, .null, .null, none, none⟩
        = some l ∧
      l.lookup "task_id" = some (.str "p1") ∧
      l.lookup "checkpoint_type" = some (.str "approval") := by
  obtain ⟨l, h1, h2, h3, _, _⟩ :=
    (C5_checkpoint_serialization_amended
      ⟨some "p1", none, "s1", "name", "desc", none, .null, .null, .null, none, none⟩).1
      "p1" rfl
  exact ⟨l, h1, h2, h3⟩

/-- C1: if every earlier tick of the wait neither observed a
terminal/checkpoint status nor reached the deadline, then a fetch that
succeeds with a snapshot in the terminal set ∪ {checkpoint} makes the
poller return on that very tick: that snapshot, that status,
`timed_out = false`, with exactly one fetch on the final tick (none for the
remaining trace) and no further sleep. -/
theorem C1_terminal_fetch_returns_immediately
    (deadline : ℚ) (pre rest : List Tick) (t : Tick)
    (last_task : Option Plan) (last_status : String) (task : Plan)
    (hpre : ∀ t' ∈ pre, (∀ task', t'.fetch = some task' →
        status_value task'.status ∉ terminalStatusList) ∧ t'.now < deadline)
    (hfetch : t.fetch = some task)
    (hterm : status_value task.status ∈ terminalStatusList) :
    waitLoop deadline (pre ++ t :: rest) last_task last_status =
      some ⟨some task, status_value task.status, false, pre.length + 1, pre.length⟩ := by
  revert hpre
  induction pre generalizing last_task last_status with
  | nil =>
    intro _
    simp only [List.nil_append, waitLoop, hfetch, List.length_nil]
    simp [hterm]
  | cons t' pre ih =>
    intro hpre
    obtain ⟨hnf, hlt⟩ := hpre t' (List.mem_cons_self _ _)
    have hpre' := fun t'' h => hpre t'' (List.mem_cons_of_mem _ h)
    cases hf : t'.fetch with
    | none =>
      simp only [List.cons_append, waitLoop, hf, List.append_eq]
      rw [if_neg (not_le.mpr hlt), ih last_task last_status hpre']
      simp [bumpTick]
    | some task' =>
      have hnt := hnf task' hf
      simp only [List.cons_append, waitLoop, hf, List.append_eq]
      rw [if_neg hnt, if_neg (not_le.mpr hlt),
        ih (some task') (status_value task'.status) hpre']
      simp [bumpTick]

def completedPlan : Plan :=
  ⟨"task-1", "user-1", "goal", some (.plain "completed"), none, none, none, none⟩

/-- Witness for C1: one failed fetch, then a fetch observing `completed`
strictly before the deadline; the poller stops there, ignoring the rest of
the trace. -/
theorem C1_terminal_fetch_returns_immediately_witness :
    waitLoop 10 ([⟨none, 0⟩] ++ ⟨some completedPlan, 1⟩ :: [⟨none, 2⟩])
      none "planning" =
      some ⟨some completedPlan, "completed", false, 2, 1⟩ :=
  C1_terminal_fetch_returns_immediately 10 [⟨none, 0⟩] [⟨none, 2⟩]
    ⟨some completedPlan, 1⟩ none "planning" completedPlan
    (by
      intro t' ht'
      simp only [List.mem_singleton] at ht'
      subst ht'
      exact ⟨fun task' h => Option.noConfusion h, by norm_num⟩)
    rfl (by decide)

theorem waitLoop_all_fetch_none (deadline : ℚ) :
    ∀ (ticks : List Tick) (last_task : Option Plan) (last_status : String),
      (∀ t ∈ ticks, t.fetch = none) →
      (∃ t ∈ ticks, deadline ≤ t.now) →
      ∃ o, waitLoop deadline ticks last_task last_status = some o ∧
        o.task = last_task ∧ o.status = last_status ∧ o.timed_out = true := by
  intro ticks
  induction ticks with
  | nil =>
    intro _ _ _ hpast
    rcases hpast with ⟨t, ht, _⟩
    cases ht
  | cons t rest ih =>
    intro last_task last_status hfail hpast
    have hft := hfail t (List.mem_cons_self _ _)
    simp only [waitLoop, hft]
    by_cases hd : deadline ≤ t.now
    · rw [if_pos hd]
      exact ⟨_, rfl, rfl, rfl, rfl⟩
    · rw [if_neg hd]
      have hpast' : ∃ t' ∈ rest, deadline ≤ t'.now := by
        rcases hpast with ⟨t', ht', hle⟩
        rcases List.mem_cons.1 ht' with rfl | hmem
        · exact absurd hle hd
        · exact ⟨t', hmem, hle⟩
      obtain ⟨o, ho, h1, h2, h3⟩ := ih last_task last_status
        (fun t' h => hfail t' (List.mem_cons_of_mem _ h)) hpast'
      exact ⟨bumpTick o, by rw [ho]; rfl, by simp [bumpTick, h1],
             by simp [bumpTick, h2], by simp [bumpTick, h3]⟩

/-- C2: when every fetch of the trace fails, the poller never raises and
never aborts early — once some tick's clock reaches the deadline it
returns with no snapshot, the default status `"planning"`, and
`timed_out = true`. -/
theorem C2_all_fetches_fail_times_out (start : ℚ) (timeout_seconds : ℤ)
    (ticks : List Tick)
    (hfail : ∀ t ∈ ticks, t.fetch = none)
    (hpast : ∃ t ∈ ticks, start + max 0 (timeout_seconds : ℚ) ≤ t.now) :
    ∃ o, wait_for_terminal_status start timeout_seconds ticks = some o ∧
      o.task = none ∧ o.status = "planning" ∧ o.timed_out = true :=
  waitLoop_all_fetch_none (start + max 0 (timeout_seconds : ℚ)) ticks
    none "planning" hfail hpast

/-- Witness for C2: both fetches fail; the second tick reaches the
deadline of a five-second wait started at time zero. -/
theorem C2_all_fetches_fail_times_out_witness :
    ∃ o, wait_for_terminal_status 0 5 [⟨none, 0⟩, ⟨none, 5⟩] = some o ∧
      o.task = none ∧ o.status = "planning" ∧ o.timed_out = true :=
  C2_all_fetches_fail_times_out 0 5 [⟨none, 0⟩, ⟨none, 5⟩]
    (by
      intro t ht
      rcases List.mem_cons.1 ht with rfl | ht2
      · rfl
      · rcases List.mem_cons.1 ht2 with rfl | h3
        · rfl
        · cases h3)
    ⟨⟨none, 5⟩, by simp, by norm_num⟩

/-- A task owned by another user, and two delegation backends: one where
the queried task exists (owned by `"someone-else"`) and one where it does
not exist. -/
def deniedPlanOther : Plan :=
  ⟨"p1", "someone-else", "secret goal", some (.plain "planning"),
   none, none, none, none⟩

def dsPlanExisting : DelegationService :=
  ⟨fun _ => .ok (some deniedPlanOther), fun _ => .ok [], fun _ _ => .ok []⟩

def dsPlanMissing : DelegationService :=
  ⟨fun _ => .ok none, fun _ => .ok [], fun _ _ => .ok []⟩

/-- C4 counterexample: the denial for a task owned by another user
(`"Access denied to this task"`) differs from the error produced when the
task does not exist (`"Task not found: p1"`), so the failure is
distinguishable from the not-found denial and reveals that a task with
that id exists — refuting the claim's indistinguishability clause. -/
theorem C4_counterexample :
    (executeGTS ⟨some "p1", false, true, 10⟩
      ⟨some "user-1", some dsPlanExisting, none, none⟩ none none).error =
        some "Access denied to this task" ∧
    (executeGTS ⟨some "p1", false, true, 10⟩
      ⟨some "user-1", some dsPlanMissing, none, none⟩ none none).error =
        some "Task not found: p1" ∧
    (executeGTS ⟨some "p1", false, true, 10⟩
      ⟨some "user-1", some dsPlanExisting, none, none⟩ none none).error ≠
    (executeGTS ⟨some "p1", false, true, 10⟩
      ⟨some "user-1", some dsPlanMissing, none, none⟩ none none).error :=
  ⟨rfl, rfl, by decide⟩

/-- C4 (amended): when the fetched task's owning user id differs from the
requesting user id, the result is `success = false` with the fixed generic
message `"Access denied to this task"`, carrying no data and hence no task
fields; the result is the same constant for every such task, so nothing
about the task is disclosed beyond its existence.  Existence, however,
remains disclosed: when the task does not exist the result is instead the
distinct error `"Task not found: <id>"`, so the denial is distinguishable
from the not-found failure. -/
theorem C4_access_denied_amended :
    (∀ (args : GTSArgs) (ctx : GTSCtx) (task_factory : Option TaskUseCases)
        (checkpoint_factory : Option CheckpointUseCases)
        (user_id pid : String) (plan : Plan),
      strTruthy ctx.user_id = some user_id →
      strTruthy args.plan_id = some pid →
      ((∃ ds, ctx.delegation_service = some ds ∧
          ds.get_plan pid = .ok (some plan)) ∨
        (ctx.delegation_service = none ∧
          ∃ tuc, resolvedTaskUC ctx task_factory = some tuc ∧
            tuc.get_task pid = .ok (some plan))) →
      plan.user_id ≠ user_id →
      executeGTS args ctx task_factory checkpoint_factory =
        ⟨false, none, none, some "Access denied to this task"⟩) ∧
    (∀ (args : GTSArgs) (ctx : GTSCtx) (task_factory : Option TaskUseCases)
        (checkpoint_factory : Option CheckpointUseCases)
        (user_id pid : String),
      strTruthy ctx.user_id = some user_id →
      strTruthy args.plan_id = some pid →
      ((∃ ds, ctx.delegation_service = some ds ∧
          ds.get_plan pid = .ok none) ∨
        (ctx.delegation_service = none ∧
          ∃ tuc, resolvedTaskUC ctx task_factory = some tuc ∧
            tuc.get_task pid = .ok none)) →
      executeGTS args ctx task_factory checkpoint_factory =
        ⟨false, none, none, some ("Task not found: " ++ pid)⟩) := by
  constructor
  · intro args ctx task_factory checkpoint_factory user_id pid plan hu hpid hprov hown
    rcases hprov with ⟨ds, hds, hfetch⟩ | ⟨hds, tuc, htuc, hfetch⟩
    · simp only [executeGTS, hu, hds, gtsBody, hpid, hfetch, Bind.bind, Except.bind,
        if_pos hown, pure, Except.pure]
    · simp only [executeGTS, hu, hds, htuc, gtsBody, hpid, hfetch, Bind.bind,
        Except.bind, if_pos hown, pure, Except.pure]
  · intro args ctx task_factory checkpoint_factory user_id pid hu hpid hprov
    rcases hprov with ⟨ds, hds, hfetch⟩ | ⟨hds, tuc, htuc, hfetch⟩
    · simp only [executeGTS, hu, hds, gtsBody, hpid, hfetch, Bind.bind, Except.bind,
        pure, Except.pure]
    · simp only [executeGTS, hu, hds, htuc, gtsBody, hpid, hfetch, Bind.bind,
        Except.bind, pure, Except.pure]

/-- Witness for C4 (amended): the constant denial at a concrete
other-owned task, and the distinct not-found error when the task is
absent. -/
theorem C4_access_denied_amended_witness :
    executeGTS ⟨some "p1", false, true, 10⟩
      ⟨some "user-1", some dsPlanExisting, none, none⟩ none none =
      ⟨false, none, none, some "Access denied to this task"⟩ ∧
    executeGTS ⟨some "p1", false, true, 10⟩
      ⟨some "user-1", some dsPlanMissing, none, none⟩ none none =
      ⟨false, none, none, some "Task not found: p1"⟩ :=
  ⟨C4_access_denied_amended.1 ⟨some "p1", false, true, 10⟩
      ⟨some "user-1", some dsPlanExisting, none, none⟩ none none
      "user-1" "p1" deniedPlanOther rfl rfl
      (Or.inl ⟨dsPlanExisting, rfl, rfl⟩) (by decide),
   C4_access_denied_amended.2 ⟨some "p1", false, true, 10⟩
      ⟨some "user-1", some dsPlanMissing, none, none⟩ none none
      "user-1" "p1" rfl rfl (Or.inl ⟨dsPlanMissing, rfl, rfl⟩)⟩

/-- C7: in listing mode, `active_count` equals the number of fetched tasks
whose canonical status is in `{planning, ready, executing, checkpoint}`;
`completed_tasks` holds only tasks with canonical status in
`{completed, failed, cancelled}`, has length at most five, and the
`completed_tasks` / `completed_count` keys are present exactly when
`include_completed = true`. -/
theorem C7_listing_mode (args : GTSArgs) (ctx : GTSCtx)
    (task_factory : Option TaskUseCases)
    (checkpoint_factory : Option CheckpointUseCases)
    (user_id : String) (ps : List Plan) (cs : List Checkpoint)
    (hu : strTruthy ctx.user_id = some user_id)
    (hnopid : strTruthy args.plan_id = none)
    (hprov :
      (∃ ds, ctx.delegation_service = some ds ∧
        ds.get_user_plans user_id args.limit = .ok ps ∧
        ds.get_pending_checkpoints user_id = .ok cs) ∨
      (ctx.delegation_service = none ∧
        (∃ tuc, resolvedTaskUC ctx task_factory = some tuc ∧
          tuc.list_tasks user_id args.limit = .ok ps) ∧
        (match resolvedCheckpointUC args ctx checkpoint_factory with
         | some cuc => cuc.list_pending user_id
         | none => Except.ok []) = .ok cs)) :
    ∃ d, (executeGTS args ctx task_factory checkpoint_factory).success = true ∧
      (executeGTS args ctx task_factory checkpoint_factory).error = none ∧
      (executeGTS args ctx task_factory checkpoint_factory).data =
        some (.listing d) ∧
      d.active_count =
        (ps.filter (fun p => decide (status_value p.status ∈ activeStatusList))).length ∧
      (d.completed_tasks.isSome ↔ args.include_completed = true) ∧
      (d.completed_count.isSome ↔ args.include_completed = true) ∧
      (∀ l, d.completed_tasks = some l →
        l.length ≤ 5 ∧ ∀ pf ∈ l, pf.status ∈ listingTerminalStatusList) := by
  have hmem : ∀ (l1 : List Plan) (pf : PlanFmt),
      pf ∈ ((l1.filter
        (fun p => decide (status_value p.status ∈ listingTerminalStatusList))).take 5).map
          format_plan →
      pf.status ∈ listingTerminalStatusList := by
    intro l1 pf hpf
    obtain ⟨p, hp, rfl⟩ := List.mem_map.1 hpf
    have hp2 := List.mem_of_mem_take hp
    have hp3 := of_decide_eq_true (List.mem_filter.1 hp2).2
    simpa [format_plan] using hp3
  have hlen : ∀ (l1 : List Plan),
      (((l1.filter
        (fun p => decide (status_value p.status ∈ listingTerminalStatusList))).take 5).map
          format_plan).length ≤ 5 := by
    intro l1
    simp only [List.length_map, List.length_take]
    omega

  rcases hprov with ⟨ds, hds, hplans, hcps⟩ | ⟨hds, ⟨tuc, htuc, hplans⟩, hcps⟩
  · -- unified delegation façade
    cases hic : args.include_checkpoints <;> cases hcomp : args.include_completed
    · refine ⟨⟨(ps.filter (fun p => decide (status_value p.status ∈ activeStatusList))).map format_plan,
            (ps.filter (fun p => decide (status_value p.status ∈ activeStatusList))).length,
            none,
            none,
            none,
            none⟩, ?_, ?_, ?_, ?_, ?_, ?_, ?_⟩
      · simp only [executeGTS, hu, hds, gtsBody, hnopid, hplans, hcps, hic, hcomp,
        Bind.bind, Except.bind, pure, Except.pure, Bool.false_eq_true,
        if_false, if_true]
      · simp only [executeGTS, hu, hds, gtsBody, hnopid, hplans, hcps, hic, hcomp,
        Bind.bind, Except.bind, pure, Except.pure, Bool.false_eq_true,
        if_false, if_true]
      · simp only [executeGTS, hu, hds, gtsBody, hnopid, hplans, hcps, hic, hcomp,
        Bind.bind, Except.bind, pure, Except.pure, Bool.false_eq_true,
        if_false, if_true]
      · rfl
      · simp
      · simp
      · intro l hl
        simp at hl
    · refine ⟨⟨(ps.filter (fun p => decide (status_value p.status ∈ activeStatusList))).map format_plan,
            (ps.filter (fun p => decide (status_value p.status ∈ activeStatusList))).length,
            some (((ps.filter (fun p => decide (status_value p.status ∈ listingTerminalStatusList))).take 5).map format_plan),
            some ((ps.filter (fun p => decide (status_value p.status ∈ listingTerminalStatusList))).take 5).length,
            none,
            none⟩, ?_, ?_, ?_, ?_, ?_, ?_, ?_⟩
      · simp only [executeGTS, hu, hds, gtsBody, hnopid, hplans, hcps, hic, hcomp,
        Bind.bind, Except.bind, pure, Except.pure, Bool.false_eq_true,
        if_false, if_true]
      · simp only [executeGTS, hu, hds, gtsBody, hnopid, hplans, hcps, hic, hcomp,
        Bind.bind, Except.bind, pure, Except.pure, Bool.false_eq_true,
        if_false, if_true]
      · simp only [executeGTS, hu, hds, gtsBody, hnopid, hplans, hcps, hic, hcomp,
        Bind.bind, Except.bind, pure, Except.pure, Bool.false_eq_true,
        if_false, if_true]
      · rfl
      · simp
      · simp
      · intro l hl
        simp only [Option.some.injEq] at hl
        subst hl
        exact ⟨hlen ps, fun pf hpf => hmem ps pf hpf⟩
    · refine ⟨⟨(ps.filter (fun p => decide (status_value p.status ∈ activeStatusList))).map format_plan,
            (ps.filter (fun p => decide (status_value p.status ∈ activeStatusList))).length,
            none,
            none,
            some (cs.map format_checkpoint),
            some (cs.map format_checkpoint).length⟩, ?_, ?_, ?_, ?_, ?_, ?_, ?_⟩
      · simp only [executeGTS, hu, hds, gtsBody, hnopid, hplans, hcps, hic, hcomp,
        Bind.bind, Except.bind, pure, Except.pure, Bool.false_eq_true,
        if_false, if_true]
      · simp only [executeGTS, hu, hds, gtsBody, hnopid, hplans, hcps, hic, hcomp,
        Bind.bind, Except.bind, pure, Except.pure, Bool.false_eq_true,
        if_false, if_true]
      · simp only [executeGTS, hu, hds, gtsBody, hnopid, hplans, hcps, hic, hcomp,
        Bind.bind, Except.bind, pure, Except.pure, Bool.false_eq_true,
        if_false, if_true]
      · rfl
      · simp
      · simp
      · intro l hl
        simp at hl
    · refine ⟨⟨(ps.filter (fun p => decide (status_value p.status ∈ activeStatusList))).map format_plan,
            (ps.filter (fun p => decide (status_value p.status ∈ activeStatusList))).length,
            some (((ps.filter (fun p => decide (status_value p.status ∈ listingTerminalStatusList))).take 5).map format_plan),
            some ((ps.filter (fun p => decide (status_value p.status ∈ listingTerminalStatusList))).take 5).length,
            some (cs.map format_checkpoint),
            some (cs.map format_checkpoint).length⟩, ?_, ?_, ?_, ?_, ?_, ?_, ?_⟩
      · simp only [executeGTS, hu, hds, gtsBody, hnopid, hplans, hcps, hic, hcomp,
        Bind.bind, Except.bind, pure, Except.pure, Bool.false_eq_true,
        if_false, if_true]
      · simp only [executeGTS, hu, hds, gtsBody, hnopid, hplans, hcps, hic, hcomp,
        Bind.bind, Except.bind, pure, Except.pure, Bool.false_eq_true,
        if_false, if_true]
      · simp only [executeGTS, hu, hds, gtsBody, hnopid, hplans, hcps, hic, hcomp,
        Bind.bind, Except.bind, pure, Except.pure, Bool.false_eq_true,
        if_false, if_true]
      · rfl
      · simp
      · simp
      · intro l hl
        simp only [Option.some.injEq] at hl
        subst hl
        exact ⟨hlen ps, fun pf hpf => hmem ps pf hpf⟩
  · -- split use-case providers
    rcases hrc : resolvedCheckpointUC args ctx checkpoint_factory with _ | cuc
    · rw [hrc] at hcps
      have hc2 : ([] : List Checkpoint) = cs := by injection hcps
      cases hic : args.include_checkpoints <;> cases hcomp : args.include_completed
      · refine ⟨⟨(ps.filter (fun p => decide (status_value p.status ∈ activeStatusList))).map format_plan,
            (ps.filter (fun p => decide (status_value p.status ∈ activeStatusList))).length,
            none,
            none,
            none,
            none⟩, ?_, ?_, ?_, ?_, ?_, ?_, ?_⟩
        · simp only [executeGTS, hu, hds, htuc, gtsBody, hnopid, hplans, hrc, hic, hcomp, ← hc2,
        Bind.bind, Except.bind, pure, Except.pure, Bool.false_eq_true,
        if_false, if_true]
        · simp only [executeGTS, hu, hds, htuc, gtsBody, hnopid, hplans, hrc, hic, hcomp, ← hc2,
        Bind.bind, Except.bind, pure, Except.pure, Bool.false_eq_true,
        if_false, if_true]
        · simp only [executeGTS, hu, hds, htuc, gtsBody, hnopid, hplans, hrc, hic, hcomp, ← hc2,
        Bind.bind, Except.bind, pure, Except.pure, Bool.false_eq_true,
        if_false, if_true]
        · rfl
        · simp
        · simp
        · intro l hl
          simp at hl
      · refine ⟨⟨(ps.filter (fun p => decide (status_value p.status ∈ activeStatusList))).map format_plan,
            (ps.filter (fun p => decide (status_value p.status ∈ activeStatusList))).length,
            some (((ps.filter (fun p => decide (status_value p.status ∈ listingTerminalStatusList))).take 5).map format_plan),
            some ((ps.filter (fun p => decide (status_value p.status ∈ listingTerminalStatusList))).take 5).length,
            none,
            none⟩, ?_, ?_, ?_, ?_, ?_, ?_, ?_⟩
        · simp only [executeGTS, hu, hds, htuc, gtsBody, hnopid, hplans, hrc, hic, hcomp, ← hc2,
        Bind.bind, Except.bind, pure, Except.pure, Bool.false_eq_true,
        if_false, if_true]
        · simp only [executeGTS, hu, hds, htuc, gtsBody, hnopid, hplans, hrc, hic, hcomp, ← hc2,
        Bind.bind, Except.bind, pure, Except.pure, Bool.false_eq_true,
        if_false, if_true]
        · simp only [executeGTS, hu, hds, htuc, gtsBody, hnopid, hplans, hrc, hic, hcomp, ← hc2,
        Bind.bind, Except.bind, pure, Except.pure, Bool.false_eq_true,
        if_false, if_true]
        · rfl
        · simp
        · simp
        · intro l hl
          simp only [Option.some.injEq] at hl
          subst hl
          exact ⟨hlen ps, fun pf hpf => hmem ps pf hpf⟩
      · refine ⟨⟨(ps.filter (fun p => decide (status_value p.status ∈ activeStatusList))).map format_plan,
            (ps.filter (fun p => decide (status_value p.status ∈ activeStatusList))).length,
            none,
            none,
            some (cs.map format_checkpoint),
            some (cs.map format_checkpoint).length⟩, ?_, ?_, ?_, ?_, ?_, ?_, ?_⟩
        · simp only [executeGTS, hu, hds, htuc, gtsBody, hnopid, hplans, hrc, hic, hcomp, ← hc2,
        Bind.bind, Except.bind, pure, Except.pure, Bool.false_eq_true,
        if_false, if_true]
        · simp only [executeGTS, hu, hds, htuc, gtsBody, hnopid, hplans, hrc, hic, hcomp, ← hc2,
        Bind.bind, Except.bind, pure, Except.pure, Bool.false_eq_true,
        if_false, if_true]
        · simp only [executeGTS, hu, hds, htuc, gtsBody, hnopid, hplans, hrc, hic, hcomp, ← hc2,
        Bind.bind, Except.bind, pure, Except.pure, Bool.false_eq_true,
        if_false, if_true]
        · rfl
        · simp
        · simp
        · intro l hl
          simp at hl
      · refine ⟨⟨(ps.filter (fun p => decide (status_value p.status ∈ activeStatusList))).map format_plan,
            (ps.filter (fun p => decide (status_value p.status ∈ activeStatusList))).length,
            some (((ps.filter (fun p => decide (status_value p.status ∈ listingTerminalStatusList))).take 5).map format_plan),
            some ((ps.filter (fun p => decide (status_value p.status ∈ listingTerminalStatusList))).take 5).length,
            some (cs.map format_checkpoint),
            some (cs.map format_checkpoint).length⟩, ?_, ?_, ?_, ?_, ?_, ?_, ?_⟩
        · simp only [executeGTS, hu, hds, htuc, gtsBody, hnopid, hplans, hrc, hic, hcomp, ← hc2,
        Bind.bind, Except.bind, pure, Except.pure, Bool.false_eq_true,
        if_false, if_true]
        · simp only [executeGTS, hu, hds, htuc, gtsBody, hnopid, hplans, hrc, hic, hcomp, ← hc2,
        Bind.bind, Except.bind, pure, Except.pure, Bool.false_eq_true,
        if_false, if_true]
        · simp only [executeGTS, hu, hds, htuc, gtsBody, hnopid, hplans, hrc, hic, hcomp, ← hc2,
        Bind.bind, Except.bind, pure, Except.pure, Bool.false_eq_true,
        if_false, if_true]
        · rfl
        · simp
        · simp
        · intro l hl
          simp only [Option.some.injEq] at hl
          subst hl
          exact ⟨hlen ps, fun pf hpf => hmem ps pf hpf⟩
    · simp only [hrc] at hcps
      cases hic : args.include_checkpoints <;> cases hcomp : args.include_completed
      · refine ⟨⟨(ps.filter (fun p => decide (status_value p.status ∈ activeStatusList))).map format_plan,
            (ps.filter (fun p => decide (status_value p.status ∈ activeStatusList))).length,
            none,
            none,
            none,
            none⟩, ?_, ?_, ?_, ?_, ?_, ?_, ?_⟩
        · simp only [executeGTS, hu, hds, htuc, gtsBody, hnopid, hplans, hrc, hic, hcomp, hcps,
        Bind.bind, Except.bind, pure, Except.pure, Bool.false_eq_true,
        if_false, if_true]
        · simp only [executeGTS, hu, hds, htuc, gtsBody, hnopid, hplans, hrc, hic, hcomp, hcps,
        Bind.bind, Except.bind, pure, Except.pure, Bool.false_eq_true,
        if_false, if_true]
        · simp only [executeGTS, hu, hds, htuc, gtsBody, hnopid, hplans, hrc, hic, hcomp, hcps,
        Bind.bind, Except.bind, pure, Except.pure, Bool.false_eq_true,
        if_false, if_true]
        · rfl
        · simp
        · simp
        · intro l hl
          simp at hl
      · refine ⟨⟨(ps.filter (fun p => decide (status_value p.status ∈ activeStatusList))).map format_plan,
            (ps.filter (fun p => decide (status_value p.status ∈ activeStatusList))).length,
            some (((ps.filter (fun p => decide (status_value p.status ∈ listingTerminalStatusList))).take 5).map format_plan),
            some ((ps.filter (fun p => decide (status_value p.status ∈ listingTerminalStatusList))).take 5).length,
            none,
            none⟩, ?_, ?_, ?_, ?_, ?_, ?_, ?_⟩
        · simp only [executeGTS, hu, hds, htuc, gtsBody, hnopid, hplans, hrc, hic, hcomp, hcps,
        Bind.bind, Except.bind, pure, Except.pure, Bool.false_eq_true,
        if_false, if_true]
        · simp only [executeGTS, hu, hds, htuc, gtsBody, hnopid, hplans, hrc, hic, hcomp, hcps,
        Bind.bind, Except.bind, pure, Except.pure, Bool.false_eq_true,
        if_false, if_true]
        · simp only [executeGTS, hu, hds, htuc, gtsBody, hnopid, hplans, hrc, hic, hcomp, hcps,
        Bind.bind, Except.bind, pure, Except.pure, Bool.false_eq_true,
        if_false, if_true]
        · rfl
        · simp
        · simp
        · intro l hl
          simp only [Option.some.injEq] at hl
          subst hl
          exact ⟨hlen ps, fun pf hpf => hmem ps pf hpf⟩
      · refine ⟨⟨(ps.filter (fun p => decide (status_value p.status ∈ activeStatusList))).map format_plan,
            (ps.filter (fun p => decide (status_value p.status ∈ activeStatusList))).length,
            none,
            none,
            some (cs.map format_checkpoint),
            some (cs.map format_checkpoint).length⟩, ?_, ?_, ?_, ?_, ?_, ?_, ?_⟩
        · simp only [executeGTS, hu, hds, htuc, gtsBody, hnopid, hplans, hrc, hic, hcomp, hcps,
        Bind.bind, Except.bind, pure, Except.pure, Bool.false_eq_true,
        if_false, if_true]
        · simp only [executeGTS, hu, hds, htuc, gtsBody, hnopid, hplans, hrc, hic, hcomp, hcps,
        Bind.bind, Except.bind, pure, Except.pure, Bool.false_eq_true,
        if_false, if_true]
        · simp only [executeGTS, hu, hds, htuc, gtsBody, hnopid, hplans, hrc, hic, hcomp, hcps,
        Bind.bind, Except.bind, pure, Except.pure, Bool.false_eq_true,
        if_false, if_true]
        · rfl
        · simp
        · simp
        · intro l hl
          simp at hl
      · refine ⟨⟨(ps.filter (fun p => decide (status_value p.status ∈ activeStatusList))).map format_plan,
            (ps.filter (fun p => decide (status_value p.status ∈ activeStatusList))).length,
            some (((ps.filter (fun p => decide (status_value p.status ∈ listingTerminalStatusList))).take 5).map format_plan),
            some ((ps.filter (fun p => decide (status_value p.status ∈ listingTerminalStatusList))).take 5).length,
            some (cs.map format_checkpoint),
            some (cs.map format_checkpoint).length⟩, ?_, ?_, ?_, ?_, ?_, ?_, ?_⟩
        · simp only [executeGTS, hu, hds, htuc, gtsBody, hnopid, hplans, hrc, hic, hcomp, hcps,
        Bind.bind, Except.bind, pure, Except.pure, Bool.false_eq_true,
        if_false, if_true]
        · simp only [executeGTS, hu, hds, htuc, gtsBody, hnopid, hplans, hrc, hic, hcomp, hcps,
        Bind.bind, Except.bind, pure, Except.pure, Bool.false_eq_true,
        if_false, if_true]
        · simp only [executeGTS, hu, hds, htuc, gtsBody, hnopid, hplans, hrc, hic, hcomp, hcps,
        Bind.bind, Except.bind, pure, Except.pure, Bool.false_eq_true,
        if_false, if_true]
        · rfl
        · simp
        · simp
        · intro l hl
          simp only [Option.some.injEq] at hl
          subst hl
          exact ⟨hlen ps, fun pf hpf => hmem ps pf hpf⟩

def listingTestPlans : List Plan :=
  [⟨"a1", "user-1", "g1", some (.plain "planning"), none, none, none, none⟩,
   ⟨"d1", "user-1", "g2", some (.plain "completed"), none, none, none, none⟩]

def dsListing : DelegationService :=
  ⟨fun _ => .ok none, fun _ => .ok [], fun _ _ => .ok listingTestPlans⟩

/-- Witness for C7 at a concrete two-task listing (one active, one
completed, `include_completed = true`). -/
theorem C7_listing_mode_witness :
    ∃ d, (executeGTS ⟨none, true, true, 10⟩
        ⟨some "user-1", some dsListing, none, none⟩ none none).data =
          some (.listing d) ∧
      d.active_count = 1 ∧ d.completed_tasks.isSome = true := by
  obtain ⟨d, _, _, h3, h4, h5, _, _⟩ :=
    C7_listing_mode ⟨none, true, true, 10⟩ ⟨some "user-1", some dsListing, none, none⟩
      none none "user-1" listingTestPlans [] rfl rfl (Or.inl ⟨dsListing, rfl, rfl, rfl⟩)
  refine ⟨d, h3, ?_, h5.mpr rfl⟩
  rw [h4]
  decide

/-- C8: after provider resolution, get_task_status fails with
`success = false` when neither a delegation service nor task use-cases are
available; but when only the checkpoint provider is unavailable while a
task provider is available, the call still succeeds, with the pending
checkpoints treated as the empty set. -/
theorem C8_provider_degradation :
    (∀ (args : GTSArgs) (ctx : GTSCtx) (task_factory : Option TaskUseCases)
        (checkpoint_factory : Option CheckpointUseCases) (user_id : String),
      strTruthy ctx.user_id = some user_id →
      ctx.delegation_service = none →
      resolvedTaskUC ctx task_factory = none →
      executeGTS args ctx task_factory checkpoint_factory =
        ⟨false, none, none, some "Delegation service not available"⟩) ∧
    (∀ (args : GTSArgs) (ctx : GTSCtx) (task_factory : Option TaskUseCases)
        (checkpoint_factory : Option CheckpointUseCases) (user_id : String)
        (tuc : TaskUseCases) (ps : List Plan),
      strTruthy ctx.user_id = some user_id →
      strTruthy args.plan_id = none →
      args.include_checkpoints = true →
      ctx.delegation_service = none →
      resolvedTaskUC ctx task_factory = some tuc →
      resolvedCheckpointUC args ctx checkpoint_factory = none →
      tuc.list_tasks user_id args.limit = .ok ps →
      ∃ d, (executeGTS args ctx task_factory checkpoint_factory).success = true ∧
        (executeGTS args ctx task_factory checkpoint_factory).data =
          some (.listing d) ∧
        d.pending_checkpoints = some [] ∧ d.checkpoint_count = some 0) := by
  constructor
  · intro args ctx task_factory checkpoint_factory user_id hu hds htuc
    simp only [executeGTS, hu, hds, htuc]
  · intro args ctx task_factory checkpoint_factory user_id tuc ps
      hu hnopid hic hds htuc hrc hplans
    cases hcomp : args.include_completed
    · refine ⟨⟨(ps.filter
          (fun p => decide (status_value p.status ∈ activeStatusList))).map format_plan,
        (ps.filter
          (fun p => decide (status_value p.status ∈ activeStatusList))).length,
        none, none, some [], some 0⟩, ?_, ?_, rfl, rfl⟩
      · simp only [executeGTS, hu, hds, htuc, gtsBody, hnopid, hplans, hrc, hic,
          hcomp, Bind.bind, Except.bind, pure, Except.pure, Bool.false_eq_true,
          if_false, if_true]
      · simp only [executeGTS, hu, hds, htuc, gtsBody, hnopid, hplans, hrc, hic,
          hcomp, Bind.bind, Except.bind, pure, Except.pure, Bool.false_eq_true,
          if_false, if_true, List.map_nil, List.length_nil]
    · refine ⟨⟨(ps.filter
          (fun p => decide (status_value p.status ∈ activeStatusList))).map format_plan,
        (ps.filter
          (fun p => decide (status_value p.status ∈ activeStatusList))).length,
        some (((ps.filter
          (fun p => decide (status_value p.status ∈ listingTerminalStatusList))).take 5).map
            format_plan),
        some ((ps.filter
          (fun p => decide (status_value p.status ∈ listingTerminalStatusList))).take 5).length,
        some [], some 0⟩, ?_, ?_, rfl, rfl⟩
      · simp only [executeGTS, hu, hds, htuc, gtsBody, hnopid, hplans, hrc, hic,
          hcomp, Bind.bind, Except.bind, pure, Except.pure, Bool.false_eq_true,
          if_false, if_true]
      · simp only [executeGTS, hu, hds, htuc, gtsBody, hnopid, hplans, hrc, hic,
          hcomp, Bind.bind, Except.bind, pure, Except.pure, Bool.false_eq_true,
          if_false, if_true, List.map_nil, List.length_nil]

def tucEmpty : TaskUseCases := ⟨fun _ => Except.ok none, fun _ _ => Except.ok []⟩

/-- Witness for C8: the no-provider failure, and the degraded success with
an available task provider but no checkpoint provider. -/
theorem C8_provider_degradation_witness :
    executeGTS ⟨none, false, true, 10⟩ ⟨some "user-1", none, none, none⟩ none none =
      ⟨false, none, none, some "Delegation service not available"⟩ ∧
    ∃ d, (executeGTS ⟨none, false, true, 10⟩
        ⟨some "user-1", none, some tucEmpty, none⟩ none none).success = true ∧
      (executeGTS ⟨none, false, true, 10⟩
        ⟨some "user-1", none, some tucEmpty, none⟩ none none).data =
          some (.listing d) ∧
      d.pending_checkpoints = some [] ∧ d.checkpoint_count = some 0 :=
  ⟨C8_provider_degradation.1 ⟨none, false, true, 10⟩
      ⟨some "user-1", none, none, none⟩ none none "user-1" rfl rfl rfl,
   C8_provider_degradation.2 ⟨none, false, true, 10⟩
      ⟨some "user-1", none, some tucEmpty, none⟩ none none "user-1" tucEmpty []
      rfl rfl rfl rfl rfl rfl rfl⟩

/-- C9: with `wait_for_completion = false` and a valid user and
conversation in context, create_task succeeds immediately with status
`"planning"` and `timed_out = false`, and performs zero `get_task`
fetches (the bounded wait is never entered). -/
theorem C9_no_wait_skips_polling (args : CTArgs) (ctx : CTCtx) (be : CTBackend)
    (default_timeout max_timeout : ℤ) (pollStart : ℚ) (ticks : List Tick)
    (user_id conversation_id task_id : String)
    (hw : args.wait_for_completion = some false)
    (hu : strTruthy ctx.user_id = some user_id)
    (hc : strTruthy ctx.conversation_id = some conversation_id)
    (hcreate : ∀ req, be.create_task req = .ok task_id)
    (hlink : be.link_conversation task_id conversation_id = .ok ()) :
    executeCT args ctx be default_timeout max_timeout pollStart ticks =
      some (⟨true,
             some ⟨task_id, args.goal, false, none, "planning", none, none, none⟩,
             some ("Task created and planning started: " ++ args.goal), none⟩, 0) := by
  simp only [executeCT, hu, hc, hw, hcreate, hlink, Option.getD_some,
    Bool.not_false, if_true, Bool.false_eq_true, not_false_eq_true]

def ctBackendOk : CTBackend :=
  ⟨fun _ => .ok "task-123", fun _ _ => .ok (), .error "checkpoint provider unused"⟩

/-- Witness for C9 at a concrete non-waiting create call. -/
theorem C9_no_wait_skips_polling_witness :
    executeCT ⟨"Research X", none, some false, none⟩
      ⟨some "user-1", some "org", some "conv-1", none⟩ ctBackendOk 60 300 0 [] =
      some (⟨true,
             some ⟨"task-123", "Research X", false, none, "planning", none, none, none⟩,
             some "Task created and planning started: Research X", none⟩, 0) :=
  C9_no_wait_skips_polling ⟨"Research X", none, some false, none⟩
    ⟨some "user-1", some "org", some "conv-1", none⟩ ctBackendOk 60 300 0 []
    "user-1" "conv-1" "task-123" rfl rfl rfl (fun _ => rfl) rfl

end Tentacle
